import Mathlib

/-!
Verification of the A.R.T.I.S.T. session state machine (src/artist.py).

The development shallowly embeds the pieces of artist.py that the spec talks
about: the speech cache (speak_text), the verse arbiter (get_best_verse with
its ChatCharacter transcripts), and the main session loop (event polling,
daydream throttle, the creation cycle with its moderation gate, image
generation, and failure paths).  External services (chat completion, speech
synthesis, moderation, image generation, audio recording, random draws) are
modelled as oracle parameters; the side effects the loop performs are
recorded in an explicit effect trace.
-/

namespace Artist

/-- One entry of a chat transcript: a role ("system", "user", "assistant")
and its content. -/
structure Msg where
  role : String
  content : String
  deriving DecidableEq, Repr

/-- Embedding of class ChatCharacter: a system prompt plus the mutable
message list.  The constructor in the source calls reset, so a freshly
built character has messages = [system msg]. -/
structure ChatCharacter where
  system_prompt : String
  messages : List Msg
  deriving DecidableEq, Repr

/-- ChatCharacter.reset: messages becomes just the system turn. -/
def ChatCharacter.reset (c : ChatCharacter) : ChatCharacter :=
  { c with messages := [⟨"system", c.system_prompt⟩] }

/-- ChatCharacter.get_chat_response: append the user turn, obtain the
assistant reply (the external chat-completion service is the oracle, a
function from the transcript sent to the reply), append the assistant turn.
Returns the updated character and the reply content. -/
def ChatCharacter.get_chat_response (c : ChatCharacter)
    (oracle : List Msg → String) (message : String) :
    ChatCharacter × String :=
  let ms := c.messages ++ [⟨"user", message⟩]
  let reply := oracle ms
  ({ c with messages := ms ++ [⟨"assistant", reply⟩] }, reply)

/-! ## Speech cache (speak_text) -/

/-- The identity of the configured speech voice (AzureSpeech fields used by
speak_text when building the cache key). -/
structure SpeechId where
  language : String
  gender : String
  voice : String
  deriving DecidableEq, Repr

/-- State touched by speak_text: the cache directory contents (file name to
wav payload), a count of synthesis calls issued, and the log of byte strings
handed to the audio player. -/
structure SpeakState where
  files : List (String × List Nat)
  synthCalls : Nat
  playedLog : List (List Nat)
  deriving DecidableEq, Repr

/-- Embedding of speak_text.  The source hashes
language ++ gender ++ voice ++ text with sha256 to obtain the cache file
name; the embedding uses the concatenated string itself as the file name
(the claims fix the tuple, so only equality of keys matters).  On a cache
miss the synthesis service (oracle synth) is called once and its output
written to the cache; then the cached file is read and played. -/
def speak_text (synth : String → List Nat) (svc : SpeechId) (text : String)
    (st : SpeakState) : SpeakState :=
  let text_details := svc.language ++ svc.gender ++ svc.voice ++ text
  let filename := text_details
  let st1 :=
    if (st.files.lookup filename).isNone then
      { st with files := (filename, synth text) :: st.files,
                synthCalls := st.synthCalls + 1 }
    else st
  match st1.files.lookup filename with
  | some bytes => { st1 with playedLog := st1.playedLog ++ [bytes] }
  | none => st1

/-! ## Verse arbiter (get_best_verse) -/

/-- Scan a string character by character and return the numeric value of the
first decimal digit, as in the loop over critic_verdict in get_best_verse. -/
def firstDigit (s : String) : Option Nat :=
  s.toList.findSome? (fun c => if c.isDigit then some (c.toNat - '0'.toNat) else none)

/-- Python list indexing, verses[i] with int i: nonnegative indices read from
the front, negative indices from the back, out of range raises IndexError
(modelled as none). -/
def pyIndex (l : List String) (i : Int) : Option String :=
  if 0 ≤ i then l.get? i.toNat
  else if 0 ≤ (l.length : Int) + i then l.get? ((l.length : Int) + i).toNat
  else none

/-- The candidate-generation loop of get_best_verse: num_verses calls to
poet.get_chat_response on the same prompt, threading the growing poet
transcript, collecting the replies in order. -/
def genVerses (oracle : List Msg → String) (poet : ChatCharacter)
    (prompt : String) : Nat → ChatCharacter × List String
  | 0 => (poet, [])
  | n + 1 =>
    let pr := poet.get_chat_response oracle prompt
    let rest := genVerses oracle pr.1 prompt n
    (rest.1, pr.2 :: rest.2)

/-- The enumeration part of the critic message: one line
"Poem i: verse" per candidate, 1-based. -/
def enumPoems : Nat → List String → String
  | _, [] => ""
  | i, v :: vs => "Poem " ++ toString i ++ ": " ++ v ++ "\n" ++ enumPoems (i + 1) vs

/-- Embedding of get_best_verse.  Oracles: poetOracle and criticOracle are
the chat-completion service as seen by the two personas; fallback is the
random draw behind random.choice (the chosen index is fallback modulo the
list length).  Both personas are reset first.  The critic is sent the theme
plus the enumerated candidates; the first digit of its reply is read as a
1-based index (Python indexing, so digit 0 would wrap to the last element
and an out-of-range digit raises, modelled as none).  With no digit, a
random candidate is chosen (random.choice of an empty list raises, which
the model also returns as none).  Returns the selection outcome and the
updated poet and critic. -/
def get_best_verse (poetOracle criticOracle : List Msg → String)
    (fallback : Nat) (poet critic : ChatCharacter)
    (base_prompt user_prompt : String) (num_verses : Nat) :
    Option String × ChatCharacter × ChatCharacter :=
  let poet1 := poet.reset
  let critic1 := critic.reset
  let pv := genVerses poetOracle poet1 (base_prompt ++ " " ++ user_prompt) num_verses
  let verses := pv.2
  let critic_message := "Theme: " ++ user_prompt ++ "\n" ++ enumPoems 1 verses
  let cr := critic1.get_chat_response criticOracle critic_message
  let chosen :=
    match firstDigit cr.2 with
    | some d => pyIndex verses ((d : Int) - 1)
    | none => verses.get? (fallback % verses.length)
  (chosen, pv.1, cr.1)

/-! ## Small helpers of main -/

/-- Embedding of get_random_string: length characters drawn from the
lowercase letters; rand is the random source (draw i selects letter
rand i mod 26). -/
def get_random_string (rand : Nat → Nat) (length : Nat) : String :=
  String.mk ((List.range length).map (fun i => Char.ofNat ('a'.toNat + rand i % 26)))

/-- Embedding of random.randint lo hi (both bounds inclusive): r is the raw
random draw. -/
def randint (lo hi : Nat) (r : Nat) : Nat := lo + r % (hi - lo + 1)

/-! ## Session state machine (main loop of artist.py)

The loop in main is embedded as a step function on an explicit state.  One
pass of the outer while body is `iteration`: the inner event-polling loop
(check_for_event plus the daydream-timer override), then the start_new /
daydream-throttle block, then the silence loop containing the creation
cycle.  All external interaction is either an oracle input (CycleEnv) or a
recorded effect (Effect). -/

/-- The discrete input events check_for_event can report. -/
inductive GameEvent
  | Quit
  | Next
  | Daydream
  deriving DecidableEq, Repr

/-- The side effects the loop performs, in program order.  Display blitting
of the finished scene is out of scope (the spec treats rendering primitives
as external); status screens, audio, storage writes and every external AI
call are recorded. -/
inductive Effect
  | showStatus (text : String)
  | speak (text : String)
  | record
  | transcribe
  | chatCompletion (persona : String)
  | writeTextFile (name : String) (contents : String)
  | moderation (text : String)
  | imageCreate (text : String)
  | saveImage (name : String)
  | saveScreenshot (name : String)
  deriving DecidableEq, Repr

/-- Generation-related external calls in the sense of the throttle spec:
chat completion, moderation, image generation, transcription. -/
def Effect.isGenCall : Effect → Bool
  | .chatCompletion _ => true
  | .moderation _ => true
  | .imageCreate _ => true
  | .transcribe => true
  | _ => false

/-- The mutable state of main that survives from one outer-loop pass to the
next: the start_new and daydream flags, the consecutive_daydreams counter,
the last message, the next_change_time deadline of the daydream timer
(time.monotonic modelled in whole seconds), and the three long-lived chat
characters. -/
structure SessionState where
  startNew : Bool
  daydream : Bool
  consecutiveDaydreams : Nat
  msg : String
  nextChangeTime : Nat
  aiArtist : ChatCharacter
  poet : ChatCharacter
  critic : ChatCharacter
  deriving DecidableEq, Repr

/-- The configuration values of config.json that the embedded loop reads. -/
structure Config where
  maxConsecutiveDaydreams : Nat
  minDaydreamTime : Nat
  maxDaydreamTime : Nat
  numVerses : Nat
  imageBasePrompt : String
  artistBasePrompt : String
  verseBasePrompt : String
  deriving DecidableEq, Repr

/-- Oracle inputs consumed by one pass of the outer loop body: the clock
value at reschedule points, raw random draws, the random.choice results from
the configured phrase pools, the recorder (attempt number to the valid_audio
flag; the recorded samples themselves only flow into transcription), the
transcription result, the chat-completion service as seen by the three
personas, the random draw behind the critic fallback, and the random source
for the output file name, plus the moderation verdict and whether the image
request succeeds. -/
structure CycleEnv where
  now : Nat
  randDelta : Nat
  welcomeWord : String
  welcomeLine : String
  workingPhrase : String
  finishedPhrase : String
  failedPhrase : String
  recordings : Nat → Bool
  transcription : String
  artistOracle : List Msg → String
  poetOracle : List Msg → String
  criticOracle : List Msg → String
  verseFallback : Nat
  nameRand : Nat → Nat
  moderationOk : Bool
  imageOk : Bool

/-- Result of one pass of the outer loop body. polling: the event-poll
oracle ran dry while the inner loop was still waiting (no state change, no
effects). quit: the Quit branch returned from main. crash: an uncaught
exception escaped (the IndexError of an out-of-range critic digit).
next: the pass finished and the loop returns to event polling with the new
state and the effects performed. -/
inductive IterOutcome
  | polling
  | quit
  | crash (effects : List Effect)
  | next (s : SessionState) (effects : List Effect)
  deriving DecidableEq, Repr

/-- Prepend already-performed effects to the trace of an outcome. -/
def IterOutcome.withPre (pre : List Effect) : IterOutcome → IterOutcome
  | .polling => .polling
  | .quit => .quit
  | .crash es => .crash (pre ++ es)
  | .next s es => .next s (pre ++ es)

/-- Which break of the inner event-polling loop fired. -/
inductive PollResult
  | quit
  | next
  | daydream
  deriving DecidableEq, Repr

/-- The status value after one poll: check_for_event returns ev, and then
the timer check overwrites status with "Daydream" whenever
time.monotonic() has reached next_change_time, regardless of ev. -/
def effectiveStatus (ev : Option GameEvent) (timerExpired : Bool) :
    Option GameEvent :=
  if timerExpired then some .Daydream else ev

/-- The inner event-polling loop of main: each element of polls is one pass
(the event check_for_event reports, if any, and the clock value at the
timer comparison).  The loop spins until a status dispatches; none means
the oracle list ran out while still polling. -/
def pollLoop (s : SessionState) : List (Option GameEvent × Nat) → Option PollResult
  | [] => none
  | (ev, now) :: rest =>
    match effectiveStatus ev (decide (s.nextChangeTime ≤ now)) with
    | some .Quit => some .quit
    | some .Next => some .next
    | some .Daydream => some .daydream
    | none => pollLoop s rest

/-- State update of the Next branch of the event loop: start_new := True,
daydream := False, consecutive_daydreams := 0. -/
def nextDispatch (s : SessionState) : SessionState :=
  { s with startNew := true, daydream := false, consecutiveDaydreams := 0 }

/-- State update of the Daydream branch of the event loop: start_new :=
True, daydream := True, consecutive_daydreams += 1. -/
def daydreamDispatch (s : SessionState) : SessionState :=
  { s with startNew := true, daydream := true,
           consecutiveDaydreams := s.consecutiveDaydreams + 1 }

/-- The number of chat-completion calls issued by one get_best_verse call:
num_verses requests to the poet and one to the critic. -/
def verseCallEffects (num_verses : Nat) : List Effect :=
  List.replicate num_verses (Effect.chatCompletion "poet") ++
    [Effect.chatCompletion "critic"]

/-- The opening of the creation cycle body: build msg either by recording
plus transcription (voice) or by one autonomous-artist chat call seeded
with the previous message, or with the generic something-completely-random
instruction when it is empty (daydream).  Returns the updated state and the
effects performed. -/
def cyclePrep (cfg : Config) (env : CycleEnv) (s : SessionState) :
    SessionState × List Effect :=
  if !s.daydream then
    ({ s with msg := env.transcription },
     [Effect.showStatus "Working...", Effect.speak env.workingPhrase,
      Effect.transcribe])
  else
    let m :=
      if s.msg ≠ "" then cfg.artistBasePrompt ++ " " ++ s.msg
      else cfg.artistBasePrompt ++ " something completely random."
    let ar := s.aiArtist.get_chat_response env.artistOracle m
    ({ s with aiArtist := ar.1, msg := ar.2 },
     [Effect.showStatus "Daydreaming...", Effect.chatCompletion "artist"])

/-- The rest of the creation cycle body (the if valid_audio block of main):
after cyclePrep, write the text file under a fresh random name, run the
moderation gate on the composed image prompt, then either the failure path
(status screen plus spoken failure phrase, timer untouched) or image
generation followed by verse selection, the finished phrase (voice cycles
only), the image and screenshot writes, and the timer reschedule. -/
def cycleBody (cfg : Config) (env : CycleEnv) (s : SessionState) : IterOutcome :=
  let sp := cyclePrep cfg env s
  let s1 := sp.1
  let name := get_random_string env.nameRand 12
  let imgPrompt := cfg.imageBasePrompt ++ s1.msg
  let effects0 := sp.2 ++ [Effect.writeTextFile name s1.msg,
                           Effect.moderation imgPrompt]
  if env.moderationOk then
    let effects1 := effects0 ++ [Effect.imageCreate imgPrompt]
    if env.imageOk then
      let gv := get_best_verse env.poetOracle env.criticOracle
        env.verseFallback s1.poet s1.critic cfg.verseBasePrompt s1.msg
        cfg.numVerses
      let effects2 := effects1 ++ verseCallEffects cfg.numVerses
      match gv.1 with
      | none => .crash effects2
      | some _ =>
        let s2 := { s1 with poet := gv.2.1, critic := gv.2.2 }
        let effects3 := effects2 ++
          (if !s2.daydream then [Effect.speak env.finishedPhrase] else [])
        let effects4 := effects3 ++
          [Effect.saveImage name, Effect.saveScreenshot name]
        .next { s2 with nextChangeTime := env.now +
                  randint cfg.minDaydreamTime cfg.maxDaydreamTime env.randDelta }
          effects4
    else
      .next s1 (effects1 ++
        [Effect.showStatus "Creation failed!", Effect.speak env.failedPhrase])
  else
    .next s1 (effects0 ++
      [Effect.showStatus "Creation failed!", Effect.speak env.failedPhrase])

/-- The while silent_loops < 10 loop, written with the remaining attempt
count as fuel (fuel = 10 - silent_loops; recIdx is the current value of
silent_loops, which indexes the recorder oracle).  A daydream pass sets
valid_audio = True without recording; a voice pass records, runs the cycle
body on voiced audio, and counts a silent loop otherwise.  Falling out of
the loop after ten silent passes shows the Ready screen (the
if silent_loops == 10 block after the loop). -/
def silentLoopAux (cfg : Config) (env : CycleEnv) (s : SessionState)
    (recIdx : Nat) : Nat → IterOutcome
  | 0 => .next s [Effect.showStatus "Ready"]
  | fuel + 1 =>
    if s.daydream then cycleBody cfg env s
    else if env.recordings recIdx then
      (cycleBody cfg env s).withPre [Effect.record]
    else
      (silentLoopAux cfg env s (recIdx + 1) fuel).withPre [Effect.record]

/-- The silence loop started with silent_loops = 0. -/
def silentLoop (cfg : Config) (env : CycleEnv) (s : SessionState) : IterOutcome :=
  silentLoopAux cfg env s 0 10

/-- The if start_new block plus the silence loop: on a ceiling breach
(consecutive_daydreams > max_consecutive_daydreams) the pass only redraws
the timer and continues; a voice pass shows the blank status screen, speaks
the greeting (welcome word plus welcome line) and shows Listening before
recording; a daydream pass proceeds silently. -/
def runCycle (cfg : Config) (env : CycleEnv) (s : SessionState) : IterOutcome :=
  if s.startNew then
    if s.consecutiveDaydreams > cfg.maxConsecutiveDaydreams then
      .next { s with nextChangeTime := env.now +
                randint cfg.minDaydreamTime cfg.maxDaydreamTime env.randDelta }
        []
    else if !s.daydream then
      (silentLoop cfg env { s with startNew := false }).withPre
        [Effect.showStatus " ",
         Effect.speak (env.welcomeWord ++ " " ++ env.welcomeLine),
         Effect.showStatus "Listening..."]
    else
      silentLoop cfg env { s with startNew := false }
  else
    silentLoop cfg env s

/-- Oracle inputs for one full pass of the outer loop: the event-poll trace
and the cycle environment. -/
structure IterOracle where
  polls : List (Option GameEvent × Nat)
  env : CycleEnv

/-- One pass of the outer while body of main: poll until an event
dispatches, apply the branch state update, then run the start_new block and
the silence loop. -/
def iteration (cfg : Config) (o : IterOracle) (s : SessionState) : IterOutcome :=
  match pollLoop s o.polls with
  | none => .polling
  | some .quit => .quit
  | some .next => runCycle cfg o.env (nextDispatch s)
  | some .daydream => runCycle cfg o.env (daydreamDispatch s)

/-- Run the loop over a list of per-pass oracles, concatenating the effect
traces.  Shutdown and a crash end the run. -/
def run (cfg : Config) (s : SessionState) : List IterOracle → List Effect
  | [] => []
  | o :: os =>
    match iteration cfg o s with
    | .polling => run cfg s os
    | .quit => []
    | .crash es => es
    | .next s' es => es ++ run cfg s' os

/-- Timer deadline of a finished pass, for stating concrete counterexamples. -/
def outcomeNextTime : IterOutcome → Option Nat
  | .next s _ => some s.nextChangeTime
  | _ => none

/-- Effect trace of an outcome, for stating concrete counterexamples. -/
def outcomeEffects : IterOutcome → List Effect
  | .crash es => es
  | .next _ es => es
  | _ => []

/-! ## Concrete fixtures used by witnesses and counterexamples -/

/-- Fixture configuration for the concrete counterexamples and witnesses. -/
def cfgFix : Config :=
  { maxConsecutiveDaydreams := 2, minDaydreamTime := 60, maxDaydreamTime := 120,
    numVerses := 2, imageBasePrompt := "Art: ", artistBasePrompt := "Paint",
    verseBasePrompt := "Write" }

/-- Fixture environment in which moderation flags the prompt, so the cycle
fails at the gate. -/
def envFixModFail : CycleEnv :=
  { now := 1000, randDelta := 0, welcomeWord := "Hi", welcomeLine := "there",
    workingPhrase := "working", finishedPhrase := "done", failedPhrase := "oops",
    recordings := fun _ => true, transcription := "a dog",
    artistOracle := fun _ => "a cat", poetOracle := fun _ => "verse one",
    criticOracle := fun _ => "I choose 2.", verseFallback := 0,
    nameRand := fun _ => 0, moderationOk := false, imageOk := true }

/-- Fixture session state: idle machine, no previous message, daydream
timer deadline at 0 (so the timer is expired from clock 0 on). -/
def sFix : SessionState :=
  { startNew := false, daydream := false, consecutiveDaydreams := 0,
    msg := "", nextChangeTime := 0, aiArtist := ⟨"a", [⟨"system", "a"⟩]⟩,
    poet := ⟨"p", [⟨"system", "p"⟩]⟩, critic := ⟨"c", [⟨"system", "c"⟩]⟩ }

/-- Fixture state over the daydream ceiling: counter 5 with ceiling 2, and
a timer deadline of 50. -/
def sFixOver : SessionState :=
  { sFix with consecutiveDaydreams := 5, nextChangeTime := 50 }

/-- State reached by the concrete daydream-triggered pass of the C6
witness: the counter went from 5 to 6 and the timer was redrawn. -/
def s6W : SessionState :=
  { startNew := true, daydream := true, consecutiveDaydreams := 6,
    msg := "", nextChangeTime := 1060, aiArtist := ⟨"a", [⟨"system", "a"⟩]⟩,
    poet := ⟨"p", [⟨"system", "p"⟩]⟩, critic := ⟨"c", [⟨"system", "c"⟩]⟩ }

/-- State reached by the failed concrete daydream pass used by the C8
witness. -/
def s8W : SessionState :=
  { startNew := false, daydream := true, consecutiveDaydreams := 1,
    msg := "a cat", nextChangeTime := 0,
    aiArtist := ⟨"a", [⟨"system", "a"⟩,
      ⟨"user", "Paint something completely random."⟩, ⟨"assistant", "a cat"⟩]⟩,
    poet := ⟨"p", [⟨"system", "p"⟩]⟩, critic := ⟨"c", [⟨"system", "c"⟩]⟩ }

/-- Effect trace of the failed concrete daydream pass used by the C8
witness. -/
def es8W : List Effect :=
  [Effect.showStatus "Daydreaming...", Effect.chatCompletion "artist",
   Effect.writeTextFile "aaaaaaaaaaaa" "a cat", Effect.moderation "Art: a cat",
   Effect.showStatus "Creation failed!", Effect.speak "oops"]

/-- State reached by the concrete failed voice pass of the C9 witness. -/
def s9W : SessionState :=
  { startNew := false, daydream := false, consecutiveDaydreams := 0,
    msg := "a dog", nextChangeTime := 0, aiArtist := ⟨"a", [⟨"system", "a"⟩]⟩,
    poet := ⟨"p", [⟨"system", "p"⟩]⟩, critic := ⟨"c", [⟨"system", "c"⟩]⟩ }

/-- Effect trace of the concrete failed voice pass of the C9 witness. -/
def es9W : List Effect :=
  [Effect.showStatus "Working...", Effect.speak "working", Effect.transcribe,
   Effect.writeTextFile "aaaaaaaaaaaa" "a dog", Effect.moderation "Art: a dog",
   Effect.showStatus "Creation failed!", Effect.speak "oops"]

/-- Per-pass oracle of the C5 witness: one empty poll, then a Daydream
event. -/
def oC5 : IterOracle := ⟨[(none, 5), (some GameEvent.Daydream, 5)], envFixModFail⟩

/-- The state after a pure timer reschedule from clock env.now. -/
def rescheduled (cfg : Config) (env : CycleEnv) (s : SessionState) :
    SessionState :=
  { s with nextChangeTime := env.now +
      randint cfg.minDaydreamTime cfg.maxDaydreamTime env.randDelta }


/-! ## Helper lemmas -/

/-- genVerses returns exactly the requested number of candidates. -/
theorem genVerses_length (o : List Msg → String) (pr : String) :
    ∀ (n : Nat) (p : ChatCharacter), ((genVerses o p pr n).2).length = n := by
  intro n
  induction n with
  | zero => intro p; rfl
  | succ k ih =>
      intro p
      simp only [genVerses, List.length_cons]
      rw [ih]

/-! ## Claim C2: speech-cache at-most-once synthesis -/

/-- Claim C2: for a fixed (language, gender, voice, text) tuple, two
successive speak_text calls issue at most one synthesis call in total (the
second call is a cache hit) and both calls play the same audio bytes. -/
theorem spec_C2 (synth : String → List Nat) (svc : SpeechId) (text : String)
    (st : SpeakState) :
    (speak_text synth svc text (speak_text synth svc text st)).synthCalls ≤
      st.synthCalls + 1 ∧
    ∃ b, (speak_text synth svc text st).playedLog = st.playedLog ++ [b] ∧
      (speak_text synth svc text (speak_text synth svc text st)).playedLog =
        st.playedLog ++ [b, b] := by
  unfold speak_text
  cases hl : st.files.lookup (svc.language ++ svc.gender ++ svc.voice ++ text) with
  | none =>
      refine ⟨?_, synth text, ?_, ?_⟩ <;>
        simp [hl, List.lookup]
  | some b =>
      refine ⟨?_, b, ?_, ?_⟩ <;>
        simp [hl]

/-! ## Claim C3: critic digit in range selects that candidate -/

/-- Claim C3: for every list of n generated candidates and every critic
reply whose first decimal digit d satisfies 1 <= d <= n, get_best_verse
returns exactly the candidate at 0-based index d - 1.  The candidate list
is whatever the poet oracle produced (hypothesis hv); the critic oracle is
the constant reply, matching the single critique request the source makes. -/
theorem spec_C3 (po : List Msg → String) (reply : String) (fb : Nat)
    (poet critic : ChatCharacter) (bp up : String) (n d : Nat)
    (verses : List String)
    (hv : (genVerses po poet.reset (bp ++ " " ++ up) n).2 = verses)
    (hd : firstDigit reply = some d) (h1 : 1 ≤ d) (hn : d ≤ n) :
    (get_best_verse po (fun _ => reply) fb poet critic bp up n).1 =
      verses.get? (d - 1) ∧ (verses.get? (d - 1)).isSome = true := by
  have hlen : verses.length = n := by
    rw [← hv]; exact genVerses_length po (bp ++ " " ++ up) n poet.reset
  have hlt : d - 1 < verses.length := by omega
  constructor
  · simp only [get_best_verse, ChatCharacter.get_chat_response, hv, hd]
    unfold pyIndex
    have h0 : (0 : Int) ≤ (d : Int) - 1 := by omega
    rw [if_pos h0]
    congr 1
    omega
  · rw [List.get?_eq_get hlt]
    rfl

/-- Claim C3 witness: three candidates, critic reply beginning with the
digit 2: the second candidate is returned. -/
theorem spec_C3_witness :
    ((genVerses (fun _ => "ode") (ChatCharacter.reset ⟨"p", []⟩)
        ("Write a verse about" ++ " " ++ "rivers") 3).2 = ["ode", "ode", "ode"]) ∧
    (firstDigit "I choose 2 because it flows best." = some 2) ∧ 1 ≤ 2 ∧ 2 ≤ 3 ∧
    ((get_best_verse (fun _ => "ode") (fun _ => "I choose 2 because it flows best.")
        0 ⟨"p", []⟩ ⟨"c", []⟩ "Write a verse about" "rivers" 3).1 =
      ["ode", "ode", "ode"].get? (2 - 1) ∧
      ((["ode", "ode", "ode"].get? (2 - 1)).isSome = true)) :=
  ⟨by decide, by decide, by decide, by decide,
   spec_C3 (fun _ => "ode") "I choose 2 because it flows best." 0 ⟨"p", []⟩
     ⟨"c", []⟩ "Write a verse about" "rivers" 3 2 ["ode", "ode", "ode"]
     (by decide) (by decide) (by decide) (by decide)⟩

/-! ## Claim C4: digit-free critique falls back to a random candidate -/

/-- Claim C4: for every list of n generated candidates (n >= 1) and every
critic reply containing no decimal digit, get_best_verse does not fail and
returns one of the n candidates (the uniform random draw is the fb oracle,
reduced modulo the candidate count as random.choice does), never an empty
or foreign string: the result is returned verbatim from the candidate
list. -/
theorem spec_C4 (po : List Msg → String) (reply : String) (fb : Nat)
    (poet critic : ChatCharacter) (bp up : String) (n : Nat)
    (verses : List String)
    (hv : (genVerses po poet.reset (bp ++ " " ++ up) n).2 = verses)
    (hd : firstDigit reply = none) (hn : 1 ≤ n) :
    ∃ v, (get_best_verse po (fun _ => reply) fb poet critic bp up n).1 = some v ∧
      v ∈ verses := by
  have hlen : verses.length = n := by
    rw [← hv]; exact genVerses_length po (bp ++ " " ++ up) n poet.reset
  have hlt : fb % verses.length < verses.length := by
    apply Nat.mod_lt; omega
  refine ⟨verses.get ⟨fb % verses.length, hlt⟩, ?_, List.get_mem _ _ hlt⟩
  simp only [get_best_verse, ChatCharacter.get_chat_response, hv, hd]
  exact List.get?_eq_get hlt

/-- Claim C4 witness: two candidates, digit-free critique, fallback draw 5:
the draw selects index 5 mod 2 = 1 and that candidate is returned. -/
theorem spec_C4_witness :
    ((genVerses (fun _ => "haiku") (ChatCharacter.reset ⟨"p", []⟩)
        ("Compose" ++ " " ++ "storms") 2).2 = ["haiku", "haiku"]) ∧
    (firstDigit "Lovely work, all of them!" = none) ∧ 1 ≤ 2 ∧
    ∃ v, (get_best_verse (fun _ => "haiku") (fun _ => "Lovely work, all of them!")
        5 ⟨"p", []⟩ ⟨"c", []⟩ "Compose" "storms" 2).1 = some v ∧
      v ∈ ["haiku", "haiku"] :=
  ⟨by decide, by decide, by decide,
   spec_C4 (fun _ => "haiku") "Lovely work, all of them!" 5 ⟨"p", []⟩ ⟨"c", []⟩
     "Compose" "storms" 2 ["haiku", "haiku"] (by decide) (by decide) (by decide)⟩

/-! ## Claim C10: out-of-range critic digit crashes the selection -/

/-- Claim C10: get_best_verse is not total over critic replies whose first
digit is out of range: with two candidates and a critic reply whose first
digit is 7, the lookup verses[7 - 1] is out of bounds and the call fails
with an index error (modelled as none) instead of returning a candidate or
falling back to the random choice. -/
theorem spec_C10 :
    firstDigit "I pick number 7." = some 7 ∧ 2 < 7 ∧
    (get_best_verse (fun _ => "a poem") (fun _ => "I pick number 7.") 0
        ⟨"p", []⟩ ⟨"c", []⟩ "Write about" "cats" 2).1 = none := by
  refine ⟨by decide, by decide, by decide⟩

/-! ## Frame lemmas for the session loop -/

/-- Inversion of withPre on a finished outcome. -/
theorem withPre_next {pre : List Effect} {o : IterOutcome} {s' : SessionState}
    {es : List Effect} (h : o.withPre pre = .next s' es) :
    ∃ es0, o = .next s' es0 ∧ es = pre ++ es0 := by
  cases o <;> simp [IterOutcome.withPre] at h
  obtain ⟨h1, h2⟩ := h
  exact ⟨_, by rw [h1], h2.symm⟩

/-- Field bookkeeping of the cycle preparation step: only msg and the
autonomous artist change. -/
theorem cyclePrep_frame (cfg : Config) (env : CycleEnv) (s : SessionState) :
    (cyclePrep cfg env s).1.startNew = s.startNew ∧
    (cyclePrep cfg env s).1.daydream = s.daydream ∧
    (cyclePrep cfg env s).1.consecutiveDaydreams = s.consecutiveDaydreams ∧
    (cyclePrep cfg env s).1.nextChangeTime = s.nextChangeTime ∧
    (cyclePrep cfg env s).1.poet = s.poet ∧
    (cyclePrep cfg env s).1.critic = s.critic := by
  by_cases hd : s.daydream <;> simp [cyclePrep, hd]

/-- Speech effects of the cycle preparation step: a daydream preparation
speaks nothing; a voice preparation speaks only the working phrase. -/
theorem cyclePrep_speaks (cfg : Config) (env : CycleEnv) (s : SessionState)
    (t : String) (ht : Effect.speak t ∈ (cyclePrep cfg env s).2) :
    s.daydream = false ∧ t = env.workingPhrase := by
  by_cases hd : s.daydream <;> simp [cyclePrep, hd] at ht
  simp_all

/-- The cycle preparation step writes no artifacts. -/
theorem cyclePrep_no_writes (cfg : Config) (env : CycleEnv) (s : SessionState)
    (m c : String) :
    Effect.writeTextFile m c ∉ (cyclePrep cfg env s).2 ∧
    Effect.saveImage m ∉ (cyclePrep cfg env s).2 ∧
    Effect.saveScreenshot m ∉ (cyclePrep cfg env s).2 := by
  by_cases hd : s.daydream <;> simp [cyclePrep, hd]

/-- Characterization of the cycle body when the moderation gate fails: the
text file is already written, the failure status and phrase fire, nothing
else happens and the timer is untouched. -/
theorem cycleBody_gateFail {cfg : Config} {env : CycleEnv} (s : SessionState)
    (hm : env.moderationOk = false) :
    cycleBody cfg env s = .next (cyclePrep cfg env s).1
      ((cyclePrep cfg env s).2 ++
       [Effect.writeTextFile (get_random_string env.nameRand 12)
          (cyclePrep cfg env s).1.msg,
        Effect.moderation (cfg.imageBasePrompt ++ (cyclePrep cfg env s).1.msg),
        Effect.showStatus "Creation failed!",
        Effect.speak env.failedPhrase]) := by
  simp [cycleBody, hm]

/-- Characterization of the cycle body when moderation passes but image
generation raises: as the gate-failure path, plus the attempted image
call. -/
theorem cycleBody_imageFail {cfg : Config} {env : CycleEnv} (s : SessionState)
    (hm : env.moderationOk = true) (hi : env.imageOk = false) :
    cycleBody cfg env s = .next (cyclePrep cfg env s).1
      ((cyclePrep cfg env s).2 ++
       [Effect.writeTextFile (get_random_string env.nameRand 12)
          (cyclePrep cfg env s).1.msg,
        Effect.moderation (cfg.imageBasePrompt ++ (cyclePrep cfg env s).1.msg),
        Effect.imageCreate (cfg.imageBasePrompt ++ (cyclePrep cfg env s).1.msg),
        Effect.showStatus "Creation failed!",
        Effect.speak env.failedPhrase]) := by
  simp [cycleBody, hm, hi]

/-- Characterization of the successful cycle body: all three artifacts are
written under the same fresh name, the finished phrase is spoken on voice
cycles only, and the timer is redrawn. -/
theorem cycleBody_success {cfg : Config} {env : CycleEnv} (s : SessionState)
    (hm : env.moderationOk = true) (hi : env.imageOk = true) {v : String}
    (hg : (get_best_verse env.poetOracle env.criticOracle env.verseFallback
            (cyclePrep cfg env s).1.poet (cyclePrep cfg env s).1.critic
            cfg.verseBasePrompt (cyclePrep cfg env s).1.msg cfg.numVerses).1 =
          some v) :
    cycleBody cfg env s = .next
      { (cyclePrep cfg env s).1 with
          poet := (get_best_verse env.poetOracle env.criticOracle
            env.verseFallback (cyclePrep cfg env s).1.poet
            (cyclePrep cfg env s).1.critic cfg.verseBasePrompt
            (cyclePrep cfg env s).1.msg cfg.numVerses).2.1,
          critic := (get_best_verse env.poetOracle env.criticOracle
            env.verseFallback (cyclePrep cfg env s).1.poet
            (cyclePrep cfg env s).1.critic cfg.verseBasePrompt
            (cyclePrep cfg env s).1.msg cfg.numVerses).2.2,
          nextChangeTime := env.now +
            randint cfg.minDaydreamTime cfg.maxDaydreamTime env.randDelta }
      ((cyclePrep cfg env s).2 ++
       [Effect.writeTextFile (get_random_string env.nameRand 12)
          (cyclePrep cfg env s).1.msg,
        Effect.moderation (cfg.imageBasePrompt ++ (cyclePrep cfg env s).1.msg),
        Effect.imageCreate (cfg.imageBasePrompt ++ (cyclePrep cfg env s).1.msg)] ++
       verseCallEffects cfg.numVerses ++
       (if !(cyclePrep cfg env s).1.daydream then [Effect.speak env.finishedPhrase]
        else []) ++
       [Effect.saveImage (get_random_string env.nameRand 12),
        Effect.saveScreenshot (get_random_string env.nameRand 12)]) := by
  simp [cycleBody, hm, hi, hg]

/-- Characterization of the cycle body when the critic digit is out of
range: the pass crashes after the verse calls. -/
theorem cycleBody_verseCrash {cfg : Config} {env : CycleEnv} (s : SessionState)
    (hm : env.moderationOk = true) (hi : env.imageOk = true)
    (hg : (get_best_verse env.poetOracle env.criticOracle env.verseFallback
            (cyclePrep cfg env s).1.poet (cyclePrep cfg env s).1.critic
            cfg.verseBasePrompt (cyclePrep cfg env s).1.msg cfg.numVerses).1 =
          none) :
    cycleBody cfg env s = .crash
      ((cyclePrep cfg env s).2 ++
       [Effect.writeTextFile (get_random_string env.nameRand 12)
          (cyclePrep cfg env s).1.msg,
        Effect.moderation (cfg.imageBasePrompt ++ (cyclePrep cfg env s).1.msg),
        Effect.imageCreate (cfg.imageBasePrompt ++ (cyclePrep cfg env s).1.msg)] ++
       verseCallEffects cfg.numVerses) := by
  simp [cycleBody, hm, hi, hg]

/-- The cycle body never touches the daydream-throttle counter or the
daydream flag. -/
theorem cycleBody_next_frame {cfg : Config} {env : CycleEnv} {s s' : SessionState}
    {es : List Effect} (h : cycleBody cfg env s = .next s' es) :
    s'.consecutiveDaydreams = s.consecutiveDaydreams ∧
      s'.daydream = s.daydream := by
  obtain ⟨-, hd, hc, -, -, -⟩ := cyclePrep_frame cfg env s
  cases hm : env.moderationOk with
  | false =>
      rw [cycleBody_gateFail s hm] at h
      cases h
      exact ⟨hc, hd⟩
  | true =>
      cases hi : env.imageOk with
      | false =>
          rw [cycleBody_imageFail s hm hi] at h
          cases h
          exact ⟨hc, hd⟩
      | true =>
          cases hg : (get_best_verse env.poetOracle env.criticOracle
              env.verseFallback (cyclePrep cfg env s).1.poet
              (cyclePrep cfg env s).1.critic cfg.verseBasePrompt
              (cyclePrep cfg env s).1.msg cfg.numVerses).1 with
          | none =>
              rw [cycleBody_verseCrash s hm hi hg] at h
              cases h
          | some v =>
              rw [cycleBody_success s hm hi hg] at h
              cases h
              exact ⟨hc, hd⟩

/-- Nonzero fuel and a daydream state: the silence loop runs the cycle body
at once, without recording (valid_audio is set to True directly). -/
theorem silentLoopAux_daydream (cfg : Config) (env : CycleEnv) {s : SessionState}
    (hd : s.daydream = true) (recIdx : Nat) {fuel : Nat} (hf : fuel ≠ 0) :
    silentLoopAux cfg env s recIdx fuel = cycleBody cfg env s := by
  cases fuel with
  | zero => exact absurd rfl hf
  | succ k => simp [silentLoopAux, hd]

/-- The silence loop never touches the counter or the daydream flag. -/
theorem silentLoopAux_next_frame (cfg : Config) (env : CycleEnv) :
    ∀ (fuel recIdx : Nat) (s s' : SessionState) (es : List Effect),
      silentLoopAux cfg env s recIdx fuel = .next s' es →
      s'.consecutiveDaydreams = s.consecutiveDaydreams ∧
        s'.daydream = s.daydream := by
  intro fuel
  induction fuel with
  | zero =>
      intro recIdx s s' es h
      simp only [silentLoopAux] at h
      cases h
      exact ⟨rfl, rfl⟩
  | succ k ih =>
      intro recIdx s s' es h
      simp only [silentLoopAux] at h
      by_cases hd : s.daydream
      · rw [if_pos hd] at h
        exact cycleBody_next_frame h
      · rw [if_neg hd] at h
        by_cases hr : env.recordings recIdx
        · rw [if_pos hr] at h
          obtain ⟨es0, h0, -⟩ := withPre_next h
          exact cycleBody_next_frame h0
        · rw [if_neg hr] at h
          obtain ⟨es0, h0, -⟩ := withPre_next h
          exact ih (recIdx + 1) s s' es0 h0

/-- A finished pass of the start_new block and silence loop keeps the
daydream-throttle counter unchanged. -/
theorem runCycle_next_cd {cfg : Config} {env : CycleEnv} {s s' : SessionState}
    {es : List Effect} (h : runCycle cfg env s = .next s' es) :
    s'.consecutiveDaydreams = s.consecutiveDaydreams := by
  unfold runCycle at h
  by_cases hs : s.startNew
  · rw [if_pos hs] at h
    by_cases hc : s.consecutiveDaydreams > cfg.maxConsecutiveDaydreams
    · rw [if_pos hc] at h
      cases h
      rfl
    · rw [if_neg hc] at h
      by_cases hd : s.daydream
      · simp only [hd, Bool.not_true, Bool.false_eq_true, if_false,
          ite_false] at h
        exact (silentLoopAux_next_frame cfg env 10 0 _ s' es h).1
      · simp only [Bool.not_eq_true] at hd
        simp only [hd, Bool.not_false, if_true, ite_true] at h
        obtain ⟨es0, h0, -⟩ := withPre_next h
        exact (silentLoopAux_next_frame cfg env 10 0 _ s' es0 h0).1
  · rw [if_neg hs] at h
    exact (silentLoopAux_next_frame cfg env 10 0 s s' es h).1

/-! ## Claim C6: counter updates at cycle dispatch -/

/-- Claim C6: consecutiveDaydreams is incremented by exactly one on each
Daydream-triggered pass and set to exactly zero at the start of every
Next-triggered pass; no later step of the pass changes it again, so the
value carried back to event polling is exactly old + 1, respectively 0
(hence the counter is non-decreasing across consecutive daydream passes). -/
theorem spec_C6 (cfg : Config) (o : IterOracle) (s s' : SessionState)
    (es : List Effect) (h : iteration cfg o s = .next s' es) :
    (pollLoop s o.polls = some PollResult.daydream →
       s'.consecutiveDaydreams = s.consecutiveDaydreams + 1) ∧
    (pollLoop s o.polls = some PollResult.next →
       s'.consecutiveDaydreams = 0) := by
  unfold iteration at h
  cases hp : pollLoop s o.polls with
  | none => rw [hp] at h; cases h
  | some r =>
      rw [hp] at h
      cases r with
      | quit => cases h
      | next =>
          constructor
          · intro hq
            simp at hq
          · intro _
            exact runCycle_next_cd h
      | daydream =>
          constructor
          · intro _
            exact runCycle_next_cd h
          · intro hq
            simp at hq

/-- Claim C6 witness: the concrete daydream-triggered pass from counter 5
carries counter 6 back to event polling. -/
theorem spec_C6_witness :
    iteration cfgFix ⟨[(some GameEvent.Daydream, 0)], envFixModFail⟩ sFixOver =
      .next s6W [] ∧
    ((pollLoop sFixOver [(some GameEvent.Daydream, 0)] =
        some PollResult.daydream →
      s6W.consecutiveDaydreams = sFixOver.consecutiveDaydreams + 1) ∧
     (pollLoop sFixOver [(some GameEvent.Daydream, 0)] = some PollResult.next →
      s6W.consecutiveDaydreams = 0)) :=
  ⟨by decide,
   spec_C6 cfgFix ⟨[(some GameEvent.Daydream, 0)], envFixModFail⟩ sFixOver
     s6W [] (by decide)⟩

/-! ## Claim C7: Quit versus an expired daydream timer -/

/-- Claim C7 counterexample: with the daydream timer already expired
(deadline 10, clock 50), a polled Quit event does not shut the machine
down: the timer check overwrites the status with Daydream, so the poll
dispatches a daydream cycle instead of the claimed transition to
Shutdown. -/
theorem spec_C7_counterexample :
    pollLoop
        { startNew := false, daydream := false, consecutiveDaydreams := 0,
          msg := "", nextChangeTime := 10, aiArtist := ⟨"a", [⟨"system", "a"⟩]⟩,
          poet := ⟨"p", [⟨"system", "p"⟩]⟩, critic := ⟨"c", [⟨"system", "c"⟩]⟩ }
        [(some GameEvent.Quit, 50)] = some PollResult.daydream ∧
    pollLoop
        { startNew := false, daydream := false, consecutiveDaydreams := 0,
          msg := "", nextChangeTime := 10, aiArtist := ⟨"a", [⟨"system", "a"⟩]⟩,
          poet := ⟨"p", [⟨"system", "p"⟩]⟩, critic := ⟨"c", [⟨"system", "c"⟩]⟩ }
        [(some GameEvent.Quit, 50)] ≠ some PollResult.quit :=
  ⟨by decide, by decide⟩

/-- Claim C7 amended: a polled Quit event transitions the machine to
Shutdown exactly when the daydream timer has not yet expired at that poll;
an expired timer overrides the polled event (Quit included) and dispatches
a Daydream cycle instead. -/
theorem spec_C7_amended (s : SessionState) (ev : Option GameEvent) (now : Nat)
    (rest : List (Option GameEvent × Nat)) (hq : ev = some GameEvent.Quit) :
    pollLoop s ((ev, now) :: rest) =
      (if s.nextChangeTime ≤ now then some PollResult.daydream
       else some PollResult.quit) := by
  subst hq
  by_cases ht : s.nextChangeTime ≤ now <;>
    simp [pollLoop, effectiveStatus, ht]

/-- Claim C7 amended witness: timer not expired (deadline 100, clock 5), a
polled Quit shuts the machine down. -/
theorem spec_C7_witness :
    some GameEvent.Quit = some GameEvent.Quit ∧
    pollLoop
        { startNew := false, daydream := false, consecutiveDaydreams := 0,
          msg := "", nextChangeTime := 100, aiArtist := ⟨"a", [⟨"system", "a"⟩]⟩,
          poet := ⟨"p", [⟨"system", "p"⟩]⟩, critic := ⟨"c", [⟨"system", "c"⟩]⟩ }
        [(some GameEvent.Quit, 5)] =
      (if (100 : Nat) ≤ 5 then some PollResult.daydream
       else some PollResult.quit) :=
  ⟨rfl,
   spec_C7_amended
     { startNew := false, daydream := false, consecutiveDaydreams := 0,
       msg := "", nextChangeTime := 100, aiArtist := ⟨"a", [⟨"system", "a"⟩]⟩,
       poet := ⟨"p", [⟨"system", "p"⟩]⟩, critic := ⟨"c", [⟨"system", "c"⟩]⟩ }
     (some GameEvent.Quit) 5 [] rfl⟩

/-! ## Claim C1: timer handling on a failed cycle -/

/-- Claim C1 counterexample: a daydream cycle that fails at the moderation
gate does NOT reschedule the daydream timer, contrary to the claim that a
failed daydream cycle does.  Concretely: deadline 0, clock 1000 and window
[60, 120] (so any redraw would land in [1060, 1120]); yet after the failed
daydream pass (the moderation effect shows the gate ran on the daydreamed
prompt) the deadline is still 0. -/
theorem spec_C1_counterexample :
    cfgFix.minDaydreamTime = 60 ∧ envFixModFail.now = 1000 ∧
    sFix.nextChangeTime = 0 ∧ envFixModFail.moderationOk = false ∧
    outcomeNextTime
        (iteration cfgFix ⟨[(some GameEvent.Daydream, 0)], envFixModFail⟩ sFix) =
      some 0 ∧
    Effect.moderation "Art: a cat" ∈
      outcomeEffects
        (iteration cfgFix ⟨[(some GameEvent.Daydream, 0)], envFixModFail⟩ sFix) :=
  ⟨rfl, rfl, rfl, rfl, by decide, by decide⟩

/-- Claim C1 amended: when a cycle fails in the Working state (moderation
gate fails or image generation errors), nextChangeTime is left unchanged in
BOTH the daydream and the voice case (the timer is redrawn only after a
successful cycle or on a ceiling breach), and in both failure cases the
machine returns to event polling. -/
theorem spec_C1_amended (cfg : Config) (env : CycleEnv) (s : SessionState)
    (hfail : env.moderationOk = false ∨ env.imageOk = false) :
    ∃ s' es, cycleBody cfg env s = .next s' es ∧
      s'.nextChangeTime = s.nextChangeTime ∧ s'.daydream = s.daydream := by
  obtain ⟨-, hd, -, hn, -, -⟩ := cyclePrep_frame cfg env s
  rcases hfail with hm | hi
  · exact ⟨_, _, cycleBody_gateFail s hm, hn, hd⟩
  · cases hm : env.moderationOk with
    | false => exact ⟨_, _, cycleBody_gateFail s hm, hn, hd⟩
    | true => exact ⟨_, _, cycleBody_imageFail s hm hi, hn, hd⟩

/-- Claim C1 amended witness: the concrete voice cycle failing at the gate
keeps its deadline. -/
theorem spec_C1_witness :
    (envFixModFail.moderationOk = false ∨ envFixModFail.imageOk = false) ∧
    ∃ s' es, cycleBody cfgFix envFixModFail sFix = .next s' es ∧
      s'.nextChangeTime = sFix.nextChangeTime ∧ s'.daydream = sFix.daydream :=
  ⟨Or.inl rfl, spec_C1_amended cfgFix envFixModFail sFix (Or.inl rfl)⟩

/-! ## Claim C8: audio during daydream cycles -/

/-- The verse-arbiter calls contain no speech effect. -/
theorem speak_not_in_verseCalls (t : String) (n : Nat) :
    Effect.speak t ∉ verseCallEffects n := by
  unfold verseCallEffects
  simp [List.mem_replicate]

/-- Speech effects of a finished daydream cycle body: every spoken phrase
is the failure phrase, and a successful pass speaks nothing at all. -/
theorem cycleBody_daydream_speaks {cfg : Config} {env : CycleEnv}
    {s : SessionState} (hdd : s.daydream = true) {s' : SessionState}
    {es : List Effect} (h : cycleBody cfg env s = .next s' es) :
    (∀ t, Effect.speak t ∈ es → t = env.failedPhrase) ∧
    (env.moderationOk = true → env.imageOk = true →
       ∀ t, Effect.speak t ∉ es) := by
  have hpd : (cyclePrep cfg env s).1.daydream = true := by
    rw [(cyclePrep_frame cfg env s).2.1, hdd]
  have hps : ∀ t, Effect.speak t ∉ (cyclePrep cfg env s).2 := by
    intro t ht
    have hvoice := (cyclePrep_speaks cfg env s t ht).1
    rw [hdd] at hvoice
    cases hvoice
  cases hm : env.moderationOk with
  | false =>
      rw [cycleBody_gateFail s hm] at h
      cases h
      constructor
      · intro t ht
        rcases List.mem_append.1 ht with h1 | h2
        · exact absurd h1 (hps t)
        · simp at h2
          exact h2
      · intro hmm
        cases hmm
  | true =>
      cases hi : env.imageOk with
      | false =>
          rw [cycleBody_imageFail s hm hi] at h
          cases h
          constructor
          · intro t ht
            rcases List.mem_append.1 ht with h1 | h2
            · exact absurd h1 (hps t)
            · simp at h2
              exact h2
          · intro _ hii
            cases hii
      | true =>
          cases hg : (get_best_verse env.poetOracle env.criticOracle
              env.verseFallback (cyclePrep cfg env s).1.poet
              (cyclePrep cfg env s).1.critic cfg.verseBasePrompt
              (cyclePrep cfg env s).1.msg cfg.numVerses).1 with
          | none =>
              rw [cycleBody_verseCrash s hm hi hg] at h
              cases h
          | some v =>
              rw [cycleBody_success s hm hi hg] at h
              cases h
              have hnone : ∀ t, Effect.speak t ∉
                  ((cyclePrep cfg env s).2 ++
                   [Effect.writeTextFile (get_random_string env.nameRand 12)
                      (cyclePrep cfg env s).1.msg,
                    Effect.moderation
                      (cfg.imageBasePrompt ++ (cyclePrep cfg env s).1.msg),
                    Effect.imageCreate
                      (cfg.imageBasePrompt ++ (cyclePrep cfg env s).1.msg)] ++
                   verseCallEffects cfg.numVerses ++
                   (if !(cyclePrep cfg env s).1.daydream then
                      [Effect.speak env.finishedPhrase] else []) ++
                   [Effect.saveImage (get_random_string env.nameRand 12),
                    Effect.saveScreenshot (get_random_string env.nameRand 12)]) := by
                intro t ht
                rw [hpd] at ht
                simp only [Bool.not_true, Bool.false_eq_true, if_false,
                  ite_false, List.append_nil, List.mem_append] at ht
                rcases ht with ((hh | hh) | hh) | hh
                · exact hps t hh
                · simp at hh
                · exact speak_not_in_verseCalls t cfg.numVerses hh
                · simp at hh
              exact ⟨fun t ht => absurd ht (hnone t), fun _ _ => hnone⟩

/-- Claim C8 counterexample: a daydream cycle that fails at the moderation
gate DOES produce audio: the failure phrase is spoken (the speak effect in
the trace), contrary to the claim that no speech occurs during daydream
cycles, failures included. -/
theorem spec_C8_counterexample :
    pollLoop sFix [(some GameEvent.Daydream, 0)] = some PollResult.daydream ∧
    envFixModFail.moderationOk = false ∧
    Effect.speak "oops" ∈
      outcomeEffects
        (iteration cfgFix ⟨[(some GameEvent.Daydream, 0)], envFixModFail⟩ sFix) :=
  ⟨by decide, rfl, by decide⟩

/-- Claim C8 amended: during a daydream-triggered pass no greeting, working
or finished phrase is ever spoken — a successful daydream cycle produces no
speech at all — but a daydream cycle failing at the moderation gate or at
image generation does speak the failure phrase (the only speech possible in
such a pass). -/
theorem spec_C8_amended (cfg : Config) (o : IterOracle) (s s' : SessionState)
    (es : List Effect) (hp : pollLoop s o.polls = some PollResult.daydream)
    (h : iteration cfg o s = .next s' es) :
    (∀ t, Effect.speak t ∈ es → t = o.env.failedPhrase) ∧
    (o.env.moderationOk = true → o.env.imageOk = true →
       ∀ t, Effect.speak t ∉ es) := by
  unfold iteration at h
  rw [hp] at h
  unfold runCycle at h
  simp only [daydreamDispatch] at h
  by_cases hc : s.consecutiveDaydreams + 1 > cfg.maxConsecutiveDaydreams
  · simp only [hc, if_true, ite_true] at h
    cases h
    constructor
    · intro t ht
      cases ht
    · intro _ _ t ht
      cases ht
  · simp only [hc, if_false, ite_false, Bool.not_true, Bool.false_eq_true,
      silentLoop] at h
    rw [silentLoopAux_daydream cfg o.env rfl 0 (by decide)] at h
    exact cycleBody_daydream_speaks rfl h

/-- Claim C8 amended witness: in the concrete failed daydream pass every
spoken phrase is the failure phrase. -/
theorem spec_C8_witness :
    pollLoop sFix [(some GameEvent.Daydream, 0)] = some PollResult.daydream ∧
    iteration cfgFix ⟨[(some GameEvent.Daydream, 0)], envFixModFail⟩ sFix =
      .next s8W es8W ∧
    ((∀ t, Effect.speak t ∈ es8W → t = envFixModFail.failedPhrase) ∧
     (envFixModFail.moderationOk = true → envFixModFail.imageOk = true →
        ∀ t, Effect.speak t ∉ es8W)) :=
  ⟨by decide, by decide,
   spec_C8_amended cfgFix ⟨[(some GameEvent.Daydream, 0)], envFixModFail⟩ sFix
     s8W es8W (by decide) (by decide)⟩

/-! ## Claim C9: artifact writes and cycle outcome -/

/-- The random output identifier has the requested length. -/
theorem get_random_string_length (rand : Nat → Nat) (n : Nat) :
    (get_random_string rand n).length = n := by
  show ((List.range n).map _).length = n
  simp

/-- A letter drawn from the lowercase range is lowercase. -/
theorem char_lower_of_mod (k : Nat) :
    (Char.ofNat ('a'.toNat + k % 26)).isLower = true := by
  have h : k % 26 < 26 := Nat.mod_lt _ (by decide)
  revert h
  generalize k % 26 = m
  intro h
  interval_cases m <;> decide

/-- The random output identifier consists of lowercase letters. -/
theorem get_random_string_lower (rand : Nat → Nat) (n : Nat) :
    (get_random_string rand n).toList.all Char.isLower = true := by
  rw [List.all_eq_true]
  intro c hc
  have hc2 : c ∈ (List.range n).map
      (fun i => Char.ofNat ('a'.toNat + rand i % 26)) := hc
  rw [List.mem_map] at hc2
  obtain ⟨i, -, rfl⟩ := hc2
  exact char_lower_of_mod (rand i)

/-- Claim C9 counterexample: a cycle that fails at the moderation gate has
already written an output artifact: the text file (holding the prompt text
of the cycle) is created before the gate runs, contrary to the claim that
a failed cycle writes no output artifact. -/
theorem spec_C9_counterexample :
    envFixModFail.moderationOk = false ∧
    Effect.writeTextFile "aaaaaaaaaaaa" "a cat" ∈
      outcomeEffects
        (iteration cfgFix ⟨[(some GameEvent.Daydream, 0)], envFixModFail⟩ sFix) :=
  ⟨rfl, by decide⟩

/-- Claim C9 amended: all artifacts of a pass share one fresh 12-character
lowercase identifier; the text file is written BEFORE the moderation gate,
so a cycle failing at the gate or at image generation still leaves the text
artifact behind (state not unchanged on error), while the raw image and the
composed scene are written only at the end of a successful cycle, under the
same identifier as the text file. -/
theorem spec_C9_amended (cfg : Config) (env : CycleEnv) (s s' : SessionState)
    (es : List Effect) (h : cycleBody cfg env s = .next s' es) :
    (get_random_string env.nameRand 12).length = 12 ∧
    (get_random_string env.nameRand 12).toList.all Char.isLower = true ∧
    ((env.moderationOk = false ∨ env.imageOk = false) →
       Effect.writeTextFile (get_random_string env.nameRand 12) s'.msg ∈ es ∧
       (∀ m, Effect.saveImage m ∉ es) ∧ (∀ m, Effect.saveScreenshot m ∉ es)) ∧
    (env.moderationOk = true → env.imageOk = true →
       Effect.writeTextFile (get_random_string env.nameRand 12) s'.msg ∈ es ∧
       Effect.saveImage (get_random_string env.nameRand 12) ∈ es ∧
       Effect.saveScreenshot (get_random_string env.nameRand 12) ∈ es) := by
  refine ⟨get_random_string_length env.nameRand 12,
          get_random_string_lower env.nameRand 12, ?_, ?_⟩
  · intro hfail
    have hfailcase : cycleBody cfg env s = .next (cyclePrep cfg env s).1
        ((cyclePrep cfg env s).2 ++
         [Effect.writeTextFile (get_random_string env.nameRand 12)
            (cyclePrep cfg env s).1.msg,
          Effect.moderation (cfg.imageBasePrompt ++ (cyclePrep cfg env s).1.msg),
          Effect.showStatus "Creation failed!",
          Effect.speak env.failedPhrase]) ∨
        cycleBody cfg env s = .next (cyclePrep cfg env s).1
        ((cyclePrep cfg env s).2 ++
         [Effect.writeTextFile (get_random_string env.nameRand 12)
            (cyclePrep cfg env s).1.msg,
          Effect.moderation (cfg.imageBasePrompt ++ (cyclePrep cfg env s).1.msg),
          Effect.imageCreate (cfg.imageBasePrompt ++ (cyclePrep cfg env s).1.msg),
          Effect.showStatus "Creation failed!",
          Effect.speak env.failedPhrase]) := by
      rcases hfail with hm | hi
      · exact Or.inl (cycleBody_gateFail s hm)
      · cases hm : env.moderationOk with
        | false => exact Or.inl (cycleBody_gateFail s hm)
        | true => exact Or.inr (cycleBody_imageFail s hm hi)
    rcases hfailcase with hcase | hcase <;> rw [hcase] at h <;> cases h <;>
      refine ⟨by simp, ?_, ?_⟩ <;>
      intro m hmem <;>
      rcases List.mem_append.1 hmem with h1 | h2
    · exact (cyclePrep_no_writes cfg env s m "").2.1 h1
    · simp at h2
    · exact (cyclePrep_no_writes cfg env s m "").2.2 h1
    · simp at h2
    · exact (cyclePrep_no_writes cfg env s m "").2.1 h1
    · simp at h2
    · exact (cyclePrep_no_writes cfg env s m "").2.2 h1
    · simp at h2
  · intro hm hi
    cases hg : (get_best_verse env.poetOracle env.criticOracle
        env.verseFallback (cyclePrep cfg env s).1.poet
        (cyclePrep cfg env s).1.critic cfg.verseBasePrompt
        (cyclePrep cfg env s).1.msg cfg.numVerses).1 with
    | none =>
        rw [cycleBody_verseCrash s hm hi hg] at h
        cases h
    | some v =>
        rw [cycleBody_success s hm hi hg] at h
        cases h
        refine ⟨?_, ?_, ?_⟩ <;> simp

/-- Claim C9 amended witness: the concrete gate-failed voice cycle already
holds the text artifact but neither image artifact. -/
theorem spec_C9_witness :
    cycleBody cfgFix envFixModFail sFix = .next s9W es9W ∧
    ((get_random_string envFixModFail.nameRand 12).length = 12 ∧
     (get_random_string envFixModFail.nameRand 12).toList.all Char.isLower =
       true ∧
     ((envFixModFail.moderationOk = false ∨ envFixModFail.imageOk = false) →
        Effect.writeTextFile (get_random_string envFixModFail.nameRand 12)
            s9W.msg ∈ es9W ∧
        (∀ m, Effect.saveImage m ∉ es9W) ∧
        (∀ m, Effect.saveScreenshot m ∉ es9W)) ∧
     (envFixModFail.moderationOk = true → envFixModFail.imageOk = true →
        Effect.writeTextFile (get_random_string envFixModFail.nameRand 12)
            s9W.msg ∈ es9W ∧
        Effect.saveImage (get_random_string envFixModFail.nameRand 12) ∈ es9W ∧
        Effect.saveScreenshot (get_random_string envFixModFail.nameRand 12) ∈
          es9W)) :=
  ⟨by decide,
   spec_C9_amended cfgFix envFixModFail sFix s9W es9W (by decide)⟩

/-! ## Claim C5: the daydream-ceiling backoff -/

/-- The event-poll loop cannot dispatch a Next cycle when no Next event is
ever polled (the timer override only ever produces Daydream). -/
theorem pollLoop_no_next (s : SessionState) :
    ∀ polls : List (Option GameEvent × Nat),
      (∀ p ∈ polls, p.1 ≠ some GameEvent.Next) →
      pollLoop s polls ≠ some PollResult.next := by
  intro polls
  induction polls with
  | nil =>
      intro _ h
      cases h
  | cons q rest ih =>
      intro hno
      obtain ⟨ev, now⟩ := q
      have hev : ev ≠ some GameEvent.Next :=
        hno (ev, now) (List.mem_cons_self _ _)
      have hrest : ∀ p ∈ rest, p.1 ≠ some GameEvent.Next :=
        fun p hp => hno p (List.mem_cons_of_mem _ hp)
      simp only [pollLoop, effectiveStatus]
      by_cases ht : s.nextChangeTime ≤ now
      · simp [ht]
      · simp only [ht, decide_eq_true_eq, if_false, ite_false]
        cases ev with
        | none => exact ih hrest
        | some g =>
            cases g with
            | Quit => simp
            | Next => exact absurd rfl hev
            | Daydream => simp

/-- On a ceiling breach the pass only redraws the timer: no effects at
all. -/
theorem runCycle_ceiling {cfg : Config} {env : CycleEnv} {s : SessionState}
    (hs : s.startNew = true)
    (hc : cfg.maxConsecutiveDaydreams < s.consecutiveDaydreams) :
    runCycle cfg env s = .next (rescheduled cfg env s) [] := by
  unfold runCycle rescheduled
  rw [hs]
  simp [hc]

/-- Once the counter is over the ceiling, the whole remaining run makes no
generation-related external call until a Next event is dispatched (here: as
long as no Next event is polled at all). -/
theorem run_no_gen (cfg : Config) :
    ∀ (os : List IterOracle) (s : SessionState),
      cfg.maxConsecutiveDaydreams < s.consecutiveDaydreams →
      (∀ o ∈ os, ∀ p ∈ o.polls, p.1 ≠ some GameEvent.Next) →
      ∀ e ∈ run cfg s os, e.isGenCall = false := by
  intro os
  induction os with
  | nil =>
      intro s _ _ e he
      cases he
  | cons o rest ih =>
      intro s hcd hno e he
      have hnn : pollLoop s o.polls ≠ some PollResult.next :=
        pollLoop_no_next s o.polls (hno o (List.mem_cons_self _ _))
      have hrest : ∀ o2 ∈ rest, ∀ p ∈ o2.polls, p.1 ≠ some GameEvent.Next :=
        fun o2 ho2 => hno o2 (List.mem_cons_of_mem _ ho2)
      cases hp : pollLoop s o.polls with
      | none =>
          have hit : iteration cfg o s = .polling := by
            unfold iteration
            rw [hp]
          simp only [run, hit] at he
          exact ih s hcd hrest e he
      | some r =>
          cases r with
          | quit =>
              have hit : iteration cfg o s = .quit := by
                unfold iteration
                rw [hp]
              simp only [run, hit] at he
              cases he
          | next => exact absurd hp hnn
          | daydream =>
              have hc1 : cfg.maxConsecutiveDaydreams <
                  (daydreamDispatch s).consecutiveDaydreams := by
                simp only [daydreamDispatch]
                omega
              have hit : iteration cfg o s =
                  .next (rescheduled cfg o.env (daydreamDispatch s)) [] := by
                unfold iteration
                rw [hp]
                exact runCycle_ceiling rfl hc1
              simp only [run, hit, List.nil_append] at he
              refine ih _ ?_ hrest e he
              simp only [rescheduled, daydreamDispatch]
              omega

/-- Claim C5: from any state with consecutiveDaydreams over the ceiling,
as long as no Next event is polled, no generation-related external call
(chat completion, moderation, image generation, transcription) occurs in
any later pass; and each over-ceiling daydream trigger only redraws the
timer inside the configured [min, max] window (no effects at all) and
returns to event polling with the counter still over the ceiling. -/
theorem spec_C5 (cfg : Config) (os : List IterOracle) (s : SessionState)
    (hminmax : cfg.minDaydreamTime ≤ cfg.maxDaydreamTime)
    (hcd : cfg.maxConsecutiveDaydreams < s.consecutiveDaydreams)
    (hno : ∀ o ∈ os, ∀ p ∈ o.polls, p.1 ≠ some GameEvent.Next) :
    (∀ e ∈ run cfg s os, e.isGenCall = false) ∧
    (∀ o : IterOracle, pollLoop s o.polls = some PollResult.daydream →
       ∃ s', iteration cfg o s = .next s' [] ∧
         s'.consecutiveDaydreams = s.consecutiveDaydreams + 1 ∧
         o.env.now + cfg.minDaydreamTime ≤ s'.nextChangeTime ∧
         s'.nextChangeTime ≤ o.env.now + cfg.maxDaydreamTime) := by
  refine ⟨run_no_gen cfg os s hcd hno, ?_⟩
  intro o hp
  refine ⟨rescheduled cfg o.env (daydreamDispatch s), ?_, ?_, ?_, ?_⟩
  · unfold iteration
    rw [hp]
    exact runCycle_ceiling rfl (by simp only [daydreamDispatch]; omega)
  · simp [rescheduled, daydreamDispatch]
  · show o.env.now + cfg.minDaydreamTime ≤ o.env.now +
      randint cfg.minDaydreamTime cfg.maxDaydreamTime o.env.randDelta
    unfold randint
    omega
  · show o.env.now +
      randint cfg.minDaydreamTime cfg.maxDaydreamTime o.env.randDelta ≤
      o.env.now + cfg.maxDaydreamTime
    unfold randint
    have hlt : o.env.randDelta %
        (cfg.maxDaydreamTime - cfg.minDaydreamTime + 1) <
        cfg.maxDaydreamTime - cfg.minDaydreamTime + 1 :=
      Nat.mod_lt _ (by omega)
    omega

/-- Claim C5 witness: from counter 5 over ceiling 2, the one-pass run with
a Daydream event makes no generation call. -/
theorem spec_C5_witness :
    cfgFix.minDaydreamTime ≤ cfgFix.maxDaydreamTime ∧
    cfgFix.maxConsecutiveDaydreams < sFixOver.consecutiveDaydreams ∧
    (∀ o ∈ [oC5], ∀ p ∈ o.polls, p.1 ≠ some GameEvent.Next) ∧
    ((∀ e ∈ run cfgFix sFixOver [oC5], e.isGenCall = false) ∧
     (∀ o : IterOracle,
        pollLoop sFixOver o.polls = some PollResult.daydream →
        ∃ s', iteration cfgFix o sFixOver = .next s' [] ∧
          s'.consecutiveDaydreams = sFixOver.consecutiveDaydreams + 1 ∧
          o.env.now + cfgFix.minDaydreamTime ≤ s'.nextChangeTime ∧
          s'.nextChangeTime ≤ o.env.now + cfgFix.maxDaydreamTime)) :=
  ⟨by decide, by decide, by decide,
   spec_C5 cfgFix [oC5] sFixOver (by decide) (by decide) (by decide)⟩

end Artist
